import Mathlib

/-!
Shallow embedding of the crop-price service (src/models.py,
src/mock_data_provider.py, src/crop_price_fetcher.py).

Conventions of the embedding:
* Python `float` prices are modelled as `ℚ`; the code only compares prices
  (`ge=0`, `min ≤ modal ≤ max`) and never does arithmetic on them, and on the
  values that occur those comparisons agree with the rational order.
* Dates are opaque `Nat` day stamps; `date.today()` becomes an explicit
  `today : Nat` argument threaded to where the source calls it.
* Python `Optional[str]` parameters become `Option String`; Python truthiness
  `if s:` on such a value is falsity of `none` and of `some ""`.
* The two network adapters (`fetch_agmarknet_prices`, `fetch_enam_prices`)
  sit behind an I/O boundary; they are modelled as an abstract behaviour
  `beh : Source → Nat → FetchResult` giving, for each source, the outcome of
  its n-th call in one orchestrator invocation: a returned record list, a
  raised `NetworkError`/`DataSourceError` (the two types the orchestrator
  retries), or any other raised exception.
* The orchestrator returns, besides its Python result (a `PriceResponse` or a
  raised exception, modelled with `Except`), a trace of observable events:
  each adapter call, each backoff sleep with its duration in seconds, and
  each call of the mock provider.
-/

namespace CropPriceService

/-- Python truthiness of an `Optional[str]` value: `None` and `""` are falsy. -/
def isTruthy : Option String → Bool
  | none => false
  | some s => s != ""

/-- Python `str.lower()` (restricted to ASCII, which covers every string this
repository handles), as a kernel-computable character map. -/
def lowerStr (s : String) : String :=
  String.mk (s.data.map Char.toLower)

/-- Python `str.strip()` with the default whitespace set: drop leading and
trailing whitespace. -/
def stripStr (s : String) : String :=
  String.mk (((s.data.dropWhile Char.isWhitespace).reverse.dropWhile Char.isWhitespace).reverse)

/-- A single crop price entry, after validation (src/models.py, `CropPrice`).
`price_date` is an opaque day stamp; the `fetched_at` timestamp of responses
is pure wall-clock metadata and is not modelled. -/
structure CropPrice where
  crop_name : String
  min_price : ℚ
  max_price : ℚ
  modal_price : ℚ
  market_name : String
  district : String
  state : String
  price_date : Nat
  unit : String
deriving Repr, DecidableEq

/-- Raw input mapping for `CropPrice` construction.  A field that is missing
from the mapping, or present with a value pydantic cannot coerce to the
declared type, is modelled as `none` (both make the field fail validation,
which is all the construction contract distinguishes).  `unit` has the
declared default `"Quintal"`. -/
structure RawCropInput where
  crop_name : Option String
  min_price : Option ℚ
  max_price : Option ℚ
  modal_price : Option ℚ
  market_name : Option String
  district : Option String
  state : Option String
  price_date : Option Nat
  unit : Option String
deriving Repr, DecidableEq

/-- Pydantic construction of `CropPrice` (src/models.py lines 9-39).  Fields
are validated in declaration order; `min_price`, `max_price`, `modal_price`
carry `ge=0`; the `max_price` field validator compares with `min_price` only
when `min_price` itself validated (it is then in `info.data`), and the
`modal_price` validator checks `min ≤ modal ≤ max` only when both bounds
validated — exactly the `info.data` guards of the source.  Pydantic collects
every field error and fails construction when any exists; this model reports
the first error, which has the same success/failure behaviour. -/
def mkCropPrice (r : RawCropInput) : Except String CropPrice :=
  match r.crop_name with
  | none => .error "crop_name: field required"
  | some cn =>
  match r.min_price with
  | none => .error "min_price: field required"
  | some mn =>
  if mn < 0 then .error "min_price: input should be greater than or equal to 0" else
  match r.max_price with
  | none => .error "max_price: field required"
  | some mx =>
  if mx < 0 then .error "max_price: input should be greater than or equal to 0" else
  if mx < mn then .error "max_price must be greater than or equal to min_price" else
  match r.modal_price with
  | none => .error "modal_price: field required"
  | some md =>
  if md < 0 then .error "modal_price: input should be greater than or equal to 0" else
  if ¬ (mn ≤ md ∧ md ≤ mx) then .error "modal_price must be between min_price and max_price" else
  match r.market_name with
  | none => .error "market_name: field required"
  | some mkt =>
  match r.district with
  | none => .error "district: field required"
  | some dist =>
  match r.state with
  | none => .error "state: field required"
  | some st =>
  match r.price_date with
  | none => .error "price_date: field required"
  | some pd =>
  .ok { crop_name := cn, min_price := mn, max_price := mx, modal_price := md,
        market_name := mkt, district := dist, state := st, price_date := pd,
        unit := r.unit.getD "Quintal" }

/-- The response envelope (src/models.py, `PriceResponse`), without the
`fetched_at` wall-clock timestamp. -/
structure PriceResponse where
  success : Bool
  data : List CropPrice
  count : Nat
  state : String
  district : Option String
  crop_name : Option String
  message : Option String
deriving Repr, DecidableEq

/-- Construction of `PriceResponse` (src/models.py lines 59-79).  The
`set_count` before-validator returns `len(info.data["data"])` whenever `data`
is in `info.data`; since `data` is declared before `count` and the inputs
here are well typed, `data` always validated first, so the supplied `count`
argument is always replaced by the length of `data`. -/
def mkPriceResponse (success : Bool) (data : List CropPrice) (count : Nat)
    (state : String) (district crop_name : Option String)
    (message : Option String) : PriceResponse :=
  { success := success, data := data, count := data.length, state := state,
    district := district, crop_name := crop_name, message := message }

/-- One entry of the fixed sample catalog, as written in the literal list
(src/mock_data_provider.py lines 37-128): no `price_date`, no `unit`. -/
structure CatalogEntry where
  crop_name : String
  min_price : ℚ
  max_price : ℚ
  modal_price : ℚ
  market_name : String
  district : String
  state : String
deriving Repr, DecidableEq

/-- The fixed in-memory catalog `all_crops` of the mock data provider
(src/mock_data_provider.py lines 37-128), in source order. -/
def all_crops : List CatalogEntry :=
  [ { crop_name := "Wheat", min_price := 2100, max_price := 2300, modal_price := 2200,
      market_name := "Azadpur Mandi", district := "North Delhi", state := "Delhi" },
    { crop_name := "Rice", min_price := 1800, max_price := 2000, modal_price := 1900,
      market_name := "Azadpur Mandi", district := "North Delhi", state := "Delhi" },
    { crop_name := "Tomato", min_price := 1200, max_price := 1500, modal_price := 1350,
      market_name := "Azadpur Mandi", district := "North Delhi", state := "Delhi" },
    { crop_name := "Potato", min_price := 800, max_price := 1000, modal_price := 900,
      market_name := "Azadpur Mandi", district := "North Delhi", state := "Delhi" },
    { crop_name := "Onion", min_price := 1500, max_price := 1800, modal_price := 1650,
      market_name := "Azadpur Mandi", district := "North Delhi", state := "Delhi" },
    { crop_name := "Wheat", min_price := 2050, max_price := 2250, modal_price := 2150,
      market_name := "Khanna Mandi", district := "Ludhiana", state := "Punjab" },
    { crop_name := "Rice", min_price := 1750, max_price := 1950, modal_price := 1850,
      market_name := "Khanna Mandi", district := "Ludhiana", state := "Punjab" },
    { crop_name := "Cotton", min_price := 5500, max_price := 6000, modal_price := 5750,
      market_name := "Yavatmal Mandi", district := "Yavatmal", state := "Maharashtra" },
    { crop_name := "Sugarcane", min_price := 280, max_price := 320, modal_price := 300,
      market_name := "Kolhapur Mandi", district := "Kolhapur", state := "Maharashtra" },
    { crop_name := "Turmeric", min_price := 12000, max_price := 14000, modal_price := 13000,
      market_name := "Erode Mandi", district := "Erode", state := "Tamil Nadu" } ]

/-- Materialization of a matching catalog entry as a `CropPrice` stamped with
the effective date (src/mock_data_provider.py lines 142-155); `unit` takes
its declared default `"Quintal"`. -/
def materialize (e : CatalogEntry) (d : Nat) : CropPrice :=
  { crop_name := e.crop_name, min_price := e.min_price, max_price := e.max_price,
    modal_price := e.modal_price, market_name := e.market_name,
    district := e.district, state := e.state, price_date := d, unit := "Quintal" }

/-- The mock data provider `get_mock_prices` (src/mock_data_provider.py
lines 13-157): defaults `price_date` to today, filters the catalog by
case-insensitive state, then by district and crop name when those arguments
are truthy, and materializes each surviving entry at the effective date. -/
def get_mock_prices (state : String) (district crop_name : Option String)
    (price_date : Option Nat) (today : Nat) : List CropPrice :=
  let d := price_date.getD today
  let filtered := all_crops.filter (fun c => lowerStr c.state == lowerStr state)
  let filtered : List CatalogEntry :=
    match district with
    | some ds => if ds != "" then filtered.filter (fun c => lowerStr c.district == lowerStr ds) else filtered
    | none => filtered
  let filtered : List CatalogEntry :=
    match crop_name with
    | some cs => if cs != "" then filtered.filter (fun c => lowerStr c.crop_name == lowerStr cs) else filtered
    | none => filtered
  filtered.map (fun c => materialize c d)

/-- The two live data sources of src/crop_price_fetcher.py. -/
inductive Source
  | agmarknet
  | enam
deriving Repr, DecidableEq

/-- The fallback choice of src/crop_price_fetcher.py line 330:
the other of the two sources. -/
def otherSource : Source → Source
  | .agmarknet => .enam
  | .enam => .agmarknet

/-- Which of the two exception classes the orchestrator retries on
(src/crop_price_fetcher.py line 314). -/
inductive ErrKind
  | network
  | dataSource
deriving Repr, DecidableEq

/-- Outcome of one adapter call, across the I/O boundary: a returned record
list, a raised `NetworkError` or `DataSourceError` (carrying its rendered
`str(e)`), or any other raised exception. -/
inductive FetchResult
  | ok (prices : List CropPrice)
  | recoverable (kind : ErrKind) (msg : String)
  | fatal (msg : String)
deriving Repr, DecidableEq

/-- Observable events of one orchestrator invocation: an adapter call, a
backoff sleep of the given number of seconds, a mock-provider call. -/
inductive Event
  | fetch (s : Source)
  | sleep (seconds : Nat)
  | mock
deriving Repr, DecidableEq

/-- Exceptions `get_crop_prices` itself can let escape: the `ValueError` of
input validation, and the wrapped `CropPriceError` of the unexpected-error
path (src/crop_price_fetcher.py lines 246 and 324). -/
inductive OrchError
  | valueError (msg : String)
  | cropPriceError (msg : String)
deriving Repr, DecidableEq

/-- `MAX_RETRIES` (src/crop_price_fetcher.py line 42). -/
def MAX_RETRIES : Nat := 3

/-- `RETRY_DELAY`, in seconds (src/crop_price_fetcher.py line 43). -/
def RETRY_DELAY : Nat := 2

/-- Result of the primary retry loop: the loop either runs to completion
(`done`, with the `prices` and `last_error` variables as left by the loop and
the events it emitted) or aborts the whole call by raising `CropPriceError`
(`aborted`, the `except Exception` arm of line 322). -/
inductive LoopOutcome
  | done (prices : List CropPrice) (lastError : Option String) (trace : List Event)
  | aborted (msg : String) (trace : List Event)
deriving Repr, DecidableEq

/-- Prepend events emitted before the remainder of the loop. -/
def LoopOutcome.withEvents (es : List Event) : LoopOutcome → LoopOutcome
  | .done p l t => .done p l (es ++ t)
  | .aborted m t => .aborted m (es ++ t)

/-- The primary retry loop of `get_crop_prices` (src/crop_price_fetcher.py
lines 301-324), over the abstract adapter behaviour `beh`.  It is entered
with `attempt = 0`, `fuel = MAX_RETRIES`, `prices = []`, `lastError = none`
and maintains `attempt + fuel = MAX_RETRIES`, so the source condition
`attempt < MAX_RETRIES - 1` for sleeping is exactly `fuel ≥ 2` here, checked
after peeling one unit of fuel for the current attempt.  A successful call
assigns `prices` and leaves the loop only when the list is non-empty; a
`NetworkError`/`DataSourceError` records `last_error` and, when attempts
remain, sleeps `RETRY_DELAY * (attempt + 1)` seconds; any other exception
aborts with the wrapped `CropPriceError` message. -/
def retryLoop (beh : Source → Nat → FetchResult) (primary : Source) :
    Nat → Nat → List CropPrice → Option String → LoopOutcome
  | _, 0, prices, lastError => .done prices lastError []
  | attempt, fuel + 1, prices, lastError =>
    match beh primary attempt with
    | .ok ps =>
        if ps.isEmpty then
          (retryLoop beh primary (attempt + 1) fuel ps lastError).withEvents
            [.fetch primary]
        else
          .done ps lastError [.fetch primary]
    | .recoverable _ msg =>
        if fuel = 0 then
          .done prices (some msg) [.fetch primary]
        else
          (retryLoop beh primary (attempt + 1) fuel prices (some msg)).withEvents
            [.fetch primary, .sleep (RETRY_DELAY * (attempt + 1))]
    | .fatal msg =>
        .aborted ("Unexpected error fetching prices: " ++ msg) [.fetch primary]

/-- Which adapter a `data_source` string selects, by the case-insensitive
comparisons at the top of each retry attempt (src/crop_price_fetcher.py
lines 303-308); `none` models the `else` arm raising
`ValueError("Unknown data source: ...")`. -/
def sourceOf (data_source : String) : Option Source :=
  if lowerStr data_source == "agmarknet" then some .agmarknet
  else if lowerStr data_source == "enam" then some .enam
  else none

/-- Worker for `pyTitle`: the flag records whether the previous character was
alphabetic. -/
def pyTitleGo : Bool → List Char → List Char
  | _, [] => []
  | prevAlpha, ch :: rest =>
      (if prevAlpha then ch.toLower else ch.toUpper) :: pyTitleGo ch.isAlpha rest

/-- Python `str.title()` (restricted to ASCII, which covers every string this
repository handles): the first letter of each alphabetic run is uppercased,
the rest lowercased. -/
def pyTitle (s : String) : String :=
  String.mk (pyTitleGo false s.data)

/-- The `district`/`crop_name` normalization of src/crop_price_fetcher.py
lines 249-252: a truthy optional string is replaced by its stripped,
title-cased form; `None` and `""` pass through unchanged. -/
def normOpt : Option String → Option String
  | none => none
  | some s => if s != "" then some (pyTitle (stripStr s)) else some s

/-- The district/crop post-filter (src/crop_price_fetcher.py lines 265-268
and 350-353): case-insensitive equality against each truthy filter. -/
def postFilter (district crop_name : Option String) (prices : List CropPrice) :
    List CropPrice :=
  let prices : List CropPrice :=
    match district with
    | some ds => if ds != "" then prices.filter (fun p => lowerStr p.district == lowerStr ds) else prices
    | none => prices
  match crop_name with
  | some cs => if cs != "" then prices.filter (fun p => lowerStr p.crop_name == lowerStr cs) else prices
  | none => prices

/-- The failure message of src/crop_price_fetcher.py lines 357-363: the
requested state, then the district and crop filters when truthy, then the
last recorded error when set. -/
def failureMessage (state : String) (district crop_name : Option String)
    (lastError : Option String) : String :=
  let m := "No price data found for state=" ++ state
  let m : String :=
    match district with
    | some ds => if ds != "" then m ++ ", district=" ++ ds else m
    | none => m
  let m : String :=
    match crop_name with
    | some cs => if cs != "" then m ++ ", crop=" ++ cs else m
    | none => m
  match lastError with
  | some e => m ++ ". Last error: " ++ e
  | none => m

/-- The mock-only branch of `get_crop_prices` (src/crop_price_fetcher.py
lines 258-290), entered when `use_mock_only` resolves true: call the mock
provider (it cannot raise); when its result is non-empty, post-filter it and
return a success response; otherwise fall through to the unavailable
response.  The arguments arrive already normalized. -/
def mockOnlyPath (today : Nat) (state : String) (district crop_name : Option String)
    (price_date : Option Nat) : Except OrchError PriceResponse × List Event :=
  let prices := get_mock_prices state district crop_name price_date today
  if !prices.isEmpty then
    let prices := postFilter district crop_name prices
    (.ok (mkPriceResponse true prices prices.length state district crop_name
      (some ("Successfully fetched " ++ toString prices.length
        ++ " mock price entries (dev mode)"))), [.mock])
  else
    (.ok (mkPriceResponse false [] 0 state district crop_name
      (some "Mock data provider unavailable")), [.mock])

/-- The single failover call of the other source (src/crop_price_fetcher.py
lines 326-336): entered only when no records were obtained and `last_error`
is set; a successful call replaces `prices`, any raised exception is
swallowed and leaves `prices` as it was. -/
def failoverStep (beh : Source → Nat → FetchResult) (primary : Source)
    (prices : List CropPrice) (lastError : Option String) (t : List Event) :
    List CropPrice × List Event :=
  if prices.isEmpty && lastError.isSome then
    (match beh (otherSource primary) 0 with
     | .ok ps => ps
     | .recoverable _ _ => prices
     | .fatal _ => prices,
     t ++ [.fetch (otherSource primary)])
  else (prices, t)

/-- The mock fallback (src/crop_price_fetcher.py lines 338-346): entered only
when still no records and `use_mock_fallback` is set; the mock provider is
total, so its `except` arm is dead. -/
def mockStep (today : Nat) (state : String) (district crop_name : Option String)
    (price_date : Option Nat) (use_mock_fallback : Bool)
    (prices : List CropPrice) (t : List Event) : List CropPrice × List Event :=
  if prices.isEmpty && use_mock_fallback then
    (get_mock_prices state district crop_name price_date today, t ++ [.mock])
  else (prices, t)

/-- Post-filter and response assembly (src/crop_price_fetcher.py
lines 348-383): the district/crop post-filter runs under `if prices:`, then
the empty result yields the failure response with the composed message, the
non-empty one the success response. -/
def finalize (state : String) (district crop_name : Option String)
    (lastError : Option String) (prices : List CropPrice) (t : List Event) :
    Except OrchError PriceResponse × List Event :=
  let prices := if !prices.isEmpty then postFilter district crop_name prices else prices
  if prices.isEmpty then
    (.ok (mkPriceResponse false [] 0 state district crop_name
      (some (failureMessage state district crop_name lastError))), t)
  else
    (.ok (mkPriceResponse true prices prices.length state district crop_name
      (some ("Successfully fetched " ++ toString prices.length
        ++ " price entries"))), t)

/-- The live part of `get_crop_prices` (src/crop_price_fetcher.py
lines 297-383) for a known primary source: the retry loop, then the failover
step, then the mock fallback step, then finalization. -/
def livePath (beh : Source → Nat → FetchResult) (primary : Source) (today : Nat)
    (state : String) (district crop_name : Option String) (price_date : Option Nat)
    (use_mock_fallback : Bool) : Except OrchError PriceResponse × List Event :=
  match retryLoop beh primary 0 MAX_RETRIES [] none with
  | .aborted msg t => (.error (.cropPriceError msg), t)
  | .done prices lastError t =>
    let step := failoverStep beh primary prices lastError t
    let step := mockStep today state district crop_name price_date use_mock_fallback
      step.1 step.2
    finalize state district crop_name lastError step.1 step.2

/-- The orchestrator `get_crop_prices` (src/crop_price_fetcher.py
lines 214-383).  `beh` is the abstract adapter behaviour, `DEV_MODE` the
process-wide development flag the `use_mock_only = None` default resolves to,
`today` the current date.  Input validation raises `ValueError` when `state`
is falsy or strips to empty; then `state`/`district`/`crop_name` are stripped
and title-cased; then either the mock-only branch runs, or — when the
`data_source` string selects no adapter — the first attempt raises
`ValueError`, caught by `except Exception` and re-raised as `CropPriceError`
before any adapter call, sleep or fallback; otherwise the live path runs. -/
def get_crop_prices (beh : Source → Nat → FetchResult) (DEV_MODE : Bool)
    (today : Nat) (state : String) (district crop_name : Option String)
    (price_date : Option Nat) (data_source : String) (use_mock_fallback : Bool)
    (use_mock_only : Option Bool) : Except OrchError PriceResponse × List Event :=
  if state == "" || stripStr state == "" then
    (.error (.valueError "State parameter is required and cannot be empty"), [])
  else
    let state := pyTitle (stripStr state)
    let district := normOpt district
    let crop_name := normOpt crop_name
    let mockOnly := use_mock_only.getD DEV_MODE
    if mockOnly then
      mockOnlyPath today state district crop_name price_date
    else
      match sourceOf data_source with
      | none =>
          (.error (.cropPriceError
            ("Unexpected error fetching prices: Unknown data source: " ++ data_source)), [])
      | some primary =>
          livePath beh primary today state district crop_name price_date use_mock_fallback

/-- Number of occurrences of one event in a trace. -/
def countEvent (e : Event) : List Event → Nat
  | [] => 0
  | x :: xs => (if x == e then 1 else 0) + countEvent e xs

/-- Number of sleep events in a trace. -/
def countSleeps : List Event → Nat
  | [] => 0
  | .sleep _ :: xs => 1 + countSleeps xs
  | _ :: xs => countSleeps xs

/-- Total seconds slept across a trace. -/
def sleepTotal : List Event → Nat
  | [] => 0
  | .sleep n :: xs => n + sleepTotal xs
  | _ :: xs => sleepTotal xs

/-- The events a loop outcome emitted. -/
def LoopOutcome.trace : LoopOutcome → List Event
  | .done _ _ t => t
  | .aborted _ t => t

/-- A fully valid raw mapping, used to instantiate the construction
contract. -/
def validRawWheat : RawCropInput :=
  { crop_name := some "Wheat", min_price := some 2100, max_price := some 2300,
    modal_price := some 2200, market_name := some "Azadpur Mandi",
    district := some "North Delhi", state := some "Delhi",
    price_date := some 7, unit := none }

/-- The first catalog entry, the unique one matching state Delhi, district
North Delhi and crop Wheat. -/
def wheatDelhiEntry : CatalogEntry :=
  { crop_name := "Wheat", min_price := 2100, max_price := 2300, modal_price := 2200,
    market_name := "Azadpur Mandi", district := "North Delhi", state := "Delhi" }

/-- Adapter behaviour whose first primary attempt raises a network error and
whose remaining attempts return an empty list without raising. -/
def behEmptyAfterFail : Source → Nat → FetchResult := fun s n =>
  match s, n with
  | .agmarknet, 0 => .recoverable .network "connection refused"
  | _, _ => .ok []

/-- Membership in the mock provider result: exactly the catalog entries that
match the state case-insensitively and, when the optional filters are truthy,
also the district and crop name, each materialized at the effective date. -/
lemma mem_get_mock_prices (s : String) (d c : Option String) (pd : Option Nat)
    (today : Nat) (r : CropPrice) :
    r ∈ get_mock_prices s d c pd today ↔
      ∃ e ∈ all_crops,
        lowerStr e.state = lowerStr s ∧
        (∀ ds, d = some ds → ds ≠ "" → lowerStr e.district = lowerStr ds) ∧
        (∀ cs, c = some cs → cs ≠ "" → lowerStr e.crop_name = lowerStr cs) ∧
        r = materialize e (pd.getD today) := by
  rcases d with _ | ds <;> rcases c with _ | cs <;>
    simp only [get_mock_prices, List.mem_map, List.mem_filter, beq_iff_eq] <;>
    [skip;
     rcases eq_or_ne cs "" with hcs | hcs;
     rcases eq_or_ne ds "" with hds | hds;
     (rcases eq_or_ne ds "" with hds | hds <;> rcases eq_or_ne cs "" with hcs | hcs)] <;>
    simp_all [List.mem_filter] <;>
    aesop

/-- C6: for every query, the Mock Data Provider returns exactly the catalog
entries matching the state case-insensitively, further restricted
case-insensitively by district and crop name when those are given
(conjunctive semantics); the Delhi / North Delhi / Wheat query yields exactly
the single matching record; when nothing matches the result is the empty
list (the function is total, so no error is possible); and every returned
record is stamped with the given price date, defaulting to today. -/
theorem mock_provider_filtering (s : String) (d c : Option String)
    (pd : Option Nat) (today : Nat) :
    (∀ r : CropPrice, r ∈ get_mock_prices s d c pd today ↔
      ∃ e ∈ all_crops,
        lowerStr e.state = lowerStr s ∧
        (∀ ds, d = some ds → ds ≠ "" → lowerStr e.district = lowerStr ds) ∧
        (∀ cs, c = some cs → cs ≠ "" → lowerStr e.crop_name = lowerStr cs) ∧
        r = materialize e (pd.getD today)) ∧
    (∀ r ∈ get_mock_prices s d c pd today, r.price_date = pd.getD today) ∧
    ((∀ e ∈ all_crops, ¬ (lowerStr e.state = lowerStr s ∧
        (∀ ds, d = some ds → ds ≠ "" → lowerStr e.district = lowerStr ds) ∧
        (∀ cs, c = some cs → cs ≠ "" → lowerStr e.crop_name = lowerStr cs))) →
      get_mock_prices s d c pd today = []) ∧
    get_mock_prices "Delhi" (some "North Delhi") (some "Wheat") pd today =
      [materialize wheatDelhiEntry (pd.getD today)] := by
  refine ⟨mem_get_mock_prices s d c pd today, ?_, ?_, ?_⟩
  · intro r hr
    obtain ⟨e, _, _, _, _, hre⟩ := (mem_get_mock_prices s d c pd today r).mp hr
    subst hre
    rfl
  · intro hnone
    rcases h : get_mock_prices s d c pd today with _ | ⟨r, rest⟩
    · rfl
    · exfalso
      have hr : r ∈ get_mock_prices s d c pd today := by rw [h]; exact List.mem_cons_self r rest
      obtain ⟨e, he, h1, h2, h3, _⟩ := (mem_get_mock_prices s d c pd today r).mp hr
      exact hnone e he ⟨h1, h2, h3⟩
  · rfl

/-- C6 witness: instantiation at the Delhi / North Delhi / Wheat query with
an explicit date, using the membership characterization on the returned
record. -/
theorem mock_provider_filtering_witness :
    materialize wheatDelhiEntry 7
      ∈ get_mock_prices "Delhi" (some "North Delhi") (some "Wheat") (some 7) 0 ∧
    (get_mock_prices "Delhi" (some "North Delhi") (some "Wheat") (some 7) 0).length = 1 := by
  have h := mock_provider_filtering "Delhi" (some "North Delhi") (some "Wheat") (some 7) 0
  refine ⟨?_, ?_⟩
  · rw [h.2.2.2]
    exact List.mem_cons_self _ _
  · rw [h.2.2.2]
    rfl

/-- C3: `CropPrice` construction is all-or-nothing: it succeeds exactly when
every required field is present and well typed, the three prices are
non-negative, `min_price ≤ max_price` and `min_price ≤ modal_price ≤
max_price`; and every constructed record satisfies the invariants. -/
theorem crop_price_all_or_nothing (r : RawCropInput) :
    ((∃ p, mkCropPrice r = .ok p) ↔
      ((∃ cn, r.crop_name = some cn) ∧ (∃ mkt, r.market_name = some mkt) ∧
       (∃ dist, r.district = some dist) ∧ (∃ st, r.state = some st) ∧
       (∃ pd, r.price_date = some pd) ∧
       ∃ mn mx md, r.min_price = some mn ∧ r.max_price = some mx ∧
         r.modal_price = some md ∧ 0 ≤ mn ∧ 0 ≤ mx ∧ 0 ≤ md ∧
         mn ≤ mx ∧ mn ≤ md ∧ md ≤ mx)) ∧
    ∀ p, mkCropPrice r = .ok p →
      0 ≤ p.min_price ∧ p.min_price ≤ p.modal_price ∧
      p.modal_price ≤ p.max_price ∧ p.min_price ≤ p.max_price := by
  obtain ⟨cn, mn, mx, md, mkt, dist, st, pd, u⟩ := r
  rcases cn with _ | cn
  · simp [mkCropPrice]
  rcases mn with _ | mn
  · simp [mkCropPrice]
  rcases mx with _ | mx
  · simp only [mkCropPrice]
    split_ifs <;> simp
  rcases md with _ | md
  · simp only [mkCropPrice]
    split_ifs <;> simp
  rcases mkt with _ | mkt
  · simp only [mkCropPrice]
    split_ifs <;> simp
  rcases dist with _ | dist
  · simp only [mkCropPrice]
    split_ifs <;> simp
  rcases st with _ | st
  · simp only [mkCropPrice]
    split_ifs <;> simp
  rcases pd with _ | pd
  · simp only [mkCropPrice]
    split_ifs <;> simp
  simp only [mkCropPrice]
  split_ifs with h1 h2 h3 h4 h5
  · constructor
    · constructor
      · rintro ⟨p, hp⟩
        simp at hp
      · rintro ⟨-, -, -, -, -, mn2, mx2, md2, hmn, hmx, hmd, g1, g2, g3, g4, g5, g6⟩
        rw [Option.some.injEq] at hmn
        subst hmn
        exact absurd g1 (by linarith)
    · intro p hp
      simp at hp
  · constructor
    · constructor
      · rintro ⟨p, hp⟩
        simp at hp
      · rintro ⟨-, -, -, -, -, mn2, mx2, md2, hmn, hmx, hmd, g1, g2, g3, g4, g5, g6⟩
        rw [Option.some.injEq] at hmx
        subst hmx
        exact absurd g2 (by linarith)
    · intro p hp
      simp at hp
  · constructor
    · constructor
      · rintro ⟨p, hp⟩
        simp at hp
      · rintro ⟨-, -, -, -, -, mn2, mx2, md2, hmn, hmx, hmd, g1, g2, g3, g4, g5, g6⟩
        rw [Option.some.injEq] at hmn
        rw [Option.some.injEq] at hmx
        subst hmn
        subst hmx
        exact absurd g4 (by linarith)
    · intro p hp
      simp at hp
  · constructor
    · constructor
      · rintro ⟨p, hp⟩
        simp at hp
      · rintro ⟨-, -, -, -, -, mn2, mx2, md2, hmn, hmx, hmd, g1, g2, g3, g4, g5, g6⟩
        rw [Option.some.injEq] at hmd
        subst hmd
        exact absurd g3 (by linarith)
    · intro p hp
      simp at hp
  · rw [not_lt] at h1 h2 h3
    constructor
    · simp
      exact ⟨h1, h2, h1.trans h5.1, h3, h5.1, h5.2⟩
    · intro p hp
      rw [Except.ok.injEq] at hp
      subst hp
      exact ⟨h1, h5.1, h5.2, h3⟩
  · constructor
    · constructor
      · rintro ⟨p, hp⟩
        simp at hp
      · rintro ⟨-, -, -, -, -, mn2, mx2, md2, hmn, hmx, hmd, g1, g2, g3, g4, g5, g6⟩
        rw [Option.some.injEq] at hmn
        rw [Option.some.injEq] at hmx
        rw [Option.some.injEq] at hmd
        subst hmn
        subst hmx
        subst hmd
        exact (h5 ⟨g5, g6⟩).elim
    · intro p hp
      simp at hp

/-- C3 witness: the theorem applied to a fully valid raw mapping yields a
constructed record obeying the price invariants. -/
theorem crop_price_all_or_nothing_witness :
    ∃ p, mkCropPrice validRawWheat = .ok p ∧
      0 ≤ p.min_price ∧ p.min_price ≤ p.modal_price ∧
      p.modal_price ≤ p.max_price ∧ p.min_price ≤ p.max_price := by
  have h := crop_price_all_or_nothing validRawWheat
  obtain ⟨p, hp⟩ := h.1.mpr
    ⟨⟨"Wheat", rfl⟩, ⟨"Azadpur Mandi", rfl⟩, ⟨"North Delhi", rfl⟩, ⟨"Delhi", rfl⟩,
     ⟨7, rfl⟩, 2100, 2300, 2200, rfl, rfl, rfl,
     by norm_num, by norm_num, by norm_num, by norm_num, by norm_num, by norm_num⟩
  exact ⟨p, hp, h.2 p hp⟩

/-- C5: the `count` of every constructed `PriceResponse` equals the length of
its `data`, whatever `count` value was supplied to the constructor. -/
theorem price_response_count_matches_data (success : Bool) (data : List CropPrice)
    (count : Nat) (state : String) (district crop_name : Option String)
    (message : Option String) :
    (mkPriceResponse success data count state district crop_name message).count
      = (mkPriceResponse success data count state district crop_name message).data.length := by
  rfl

/-- C7 counterexample: the mock catalog does hold 10 entries, but their
states take 4 distinct values, not 5. -/
theorem mock_catalog_not_five_states :
    all_crops.length = 10 ∧
    (all_crops.map CatalogEntry.state).dedup = ["Delhi", "Punjab", "Maharashtra", "Tamil Nadu"] ∧
    ¬ (all_crops.length = 10 ∧ (all_crops.map CatalogEntry.state).dedup.length = 5) := by
  refine ⟨rfl, by decide, ?_⟩
  intro h
  have := h.2
  simp [all_crops] at this

/-- C7 amended: the mock catalog contains exactly 10 sample entries whose
state values span exactly 4 distinct states. -/
theorem mock_catalog_ten_entries_four_states :
    all_crops.length = 10 ∧ (all_crops.map CatalogEntry.state).dedup.length = 4 := by
  decide


/-- The mock-only branch always returns a response, never an error. -/
lemma mockOnlyPath_isOk (today : Nat) (state : String) (district crop_name : Option String)
    (price_date : Option Nat) :
    ∃ resp, (mockOnlyPath today state district crop_name price_date).1 = .ok resp := by
  simp only [mockOnlyPath]
  split
  · exact ⟨_, rfl⟩
  · exact ⟨_, rfl⟩

/-- Finalization always returns a response, never an error. -/
lemma finalize_isOk (state : String) (district crop_name : Option String)
    (lastError : Option String) (prices : List CropPrice) (t : List Event) :
    ∃ resp, (finalize state district crop_name lastError prices t).1 = .ok resp := by
  simp only [finalize]
  split <;> split <;> exact ⟨_, rfl⟩

/-- The live path raises at most the wrapped orchestration error. -/
lemma livePath_no_valueError (beh : Source → Nat → FetchResult) (primary : Source)
    (today : Nat) (state : String) (district crop_name : Option String)
    (price_date : Option Nat) (use_mock_fallback : Bool) (m : String) :
    (livePath beh primary today state district crop_name price_date use_mock_fallback).1
      ≠ .error (.valueError m) := by
  simp only [livePath]
  cases hloop : retryLoop beh primary 0 MAX_RETRIES [] none with
  | aborted msg t => simp
  | done prices lastError t =>
    obtain ⟨resp, hresp⟩ := finalize_isOk state district crop_name lastError
      (mockStep today state district crop_name price_date use_mock_fallback
        (failoverStep beh primary prices lastError t).1
        (failoverStep beh primary prices lastError t).2).1
      (mockStep today state district crop_name price_date use_mock_fallback
        (failoverStep beh primary prices lastError t).1
        (failoverStep beh primary prices lastError t).2).2
    simp [hresp]

/-- A state whose strip is non-empty fails neither truthiness test of the
input validation. -/
lemma validCond_false {state : String} (h : stripStr state ≠ "") :
    (state == "" || stripStr state == "") = false := by
  have h1 : state ≠ "" := by
    rintro rfl
    exact h rfl
  simp [h1, h]

/-- C9: `get_crop_prices` raises the input `ValueError` if and only if the
state argument is empty or whitespace-only after stripping; for every other
state no input error escapes (the only other escaping exception is the
wrapped orchestration error). -/
theorem input_error_iff_blank_state (beh : Source → Nat → FetchResult)
    (DEV_MODE : Bool) (today : Nat) (state : String)
    (district crop_name : Option String) (price_date : Option Nat)
    (data_source : String) (use_mock_fallback : Bool) (use_mock_only : Option Bool) :
    (∃ m, (get_crop_prices beh DEV_MODE today state district crop_name price_date
        data_source use_mock_fallback use_mock_only).1 = .error (.valueError m))
      ↔ stripStr state = "" := by
  constructor
  · rintro ⟨m, hm⟩
    by_contra h
    rw [get_crop_prices] at hm
    rw [validCond_false h] at hm
    simp only [Bool.false_eq_true, if_false] at hm
    split at hm
    · obtain ⟨resp, hresp⟩ := mockOnlyPath_isOk today (pyTitle (stripStr state))
        (normOpt district) (normOpt crop_name) price_date
      rw [hresp] at hm
      exact Except.noConfusion hm
    · split at hm
      · simp at hm
      · exact livePath_no_valueError _ _ _ _ _ _ _ _ _ hm
  · intro h
    rw [get_crop_prices]
    have hcond : (state == "" || stripStr state == "") = true := by
      simp [h]
    rw [hcond]
    exact ⟨_, rfl⟩

/-- C9 witness: a whitespace-only state raises the input error, and the same
call with state Delhi raises none. -/
theorem input_error_iff_blank_state_witness :
    (∃ m, (get_crop_prices (fun _ _ => .recoverable .network "down") false 0 "  "
        none none none "agmarknet" true (some false)).1 = .error (.valueError m)) ∧
    ¬ (∃ m, (get_crop_prices (fun _ _ => .recoverable .network "down") false 0 "Delhi"
        none none none "agmarknet" true (some false)).1 = .error (.valueError m)) := by
  constructor
  · exact (input_error_iff_blank_state _ false 0 "  " none none none "agmarknet" true
      (some false)).mpr (by decide)
  · intro h
    have := (input_error_iff_blank_state _ false 0 "Delhi" none none none "agmarknet" true
      (some false)).mp h
    exact absurd this (by decide)


/-- The post-filter keeps every record the mock provider returns for the same
filters: the provider already applied the identical case-insensitive district
and crop conditions. -/
lemma postFilter_mock (s : String) (d c : Option String) (pd : Option Nat)
    (today : Nat) :
    postFilter d c (get_mock_prices s d c pd today) = get_mock_prices s d c pd today := by
  have hd : ∀ p ∈ get_mock_prices s d c pd today, ∀ ds, d = some ds → ds ≠ "" →
      lowerStr p.district = lowerStr ds := by
    intro p hp ds hds hne
    obtain ⟨e, _, _, h2, _, hre⟩ := (mem_get_mock_prices s d c pd today p).mp hp
    subst hre
    exact h2 ds hds hne
  have hc : ∀ p ∈ get_mock_prices s d c pd today, ∀ cs, c = some cs → cs ≠ "" →
      lowerStr p.crop_name = lowerStr cs := by
    intro p hp cs hcs hne
    obtain ⟨e, _, _, _, h3, hre⟩ := (mem_get_mock_prices s d c pd today p).mp hp
    subst hre
    exact h3 cs hcs hne
  rcases d with _ | ds <;> rcases c with _ | cs <;> simp only [postFilter]
  · by_cases hne : cs = ""
    · rw [if_neg (by simp [hne])]
    · rw [if_pos (bne_iff_ne.mpr hne)]
      exact List.filter_eq_self.mpr (fun p hp => beq_iff_eq.mpr (hc p hp cs rfl hne))
  · by_cases hne : ds = ""
    · rw [if_neg (by simp [hne])]
    · rw [if_pos (bne_iff_ne.mpr hne)]
      exact List.filter_eq_self.mpr (fun p hp => beq_iff_eq.mpr (hd p hp ds rfl hne))
  · have hstep : (if (ds != "") = true then
        List.filter (fun p => lowerStr p.district == lowerStr ds)
          (get_mock_prices s (some ds) (some cs) pd today)
      else get_mock_prices s (some ds) (some cs) pd today)
        = get_mock_prices s (some ds) (some cs) pd today := by
      by_cases hne : ds = ""
      · rw [if_neg (by simp [hne])]
      · rw [if_pos (bne_iff_ne.mpr hne)]
        exact List.filter_eq_self.mpr (fun p hp => beq_iff_eq.mpr (hd p hp ds rfl hne))
    rw [hstep]
    by_cases hne : cs = ""
    · rw [if_neg (by simp [hne])]
    · rw [if_pos (bne_iff_ne.mpr hne)]
      exact List.filter_eq_self.mpr (fun p hp => beq_iff_eq.mpr (hc p hp cs rfl hne))



/-- The post-filter of the empty record list is empty. -/
lemma postFilter_nil (d c : Option String) : postFilter d c [] = [] := by
  rcases d with _ | ds <;> rcases c with _ | cs <;> simp [postFilter]

/-- C8: with `use_mock_only` resolving true, `get_crop_prices` consults the
mock provider once and returns at once — the trace is exactly one mock call,
so no source adapter is touched — with a response whose data is the
post-filtered mock result and whose success flag is true exactly when that
record set is non-empty; for the unknown state Atlantis the mock-only call
returns success false, count 0 and a non-empty message. -/
theorem mock_only_path_terminal (beh : Source → Nat → FetchResult)
    (DEV_MODE : Bool) (today : Nat) (state : String)
    (district crop_name : Option String) (price_date : Option Nat)
    (data_source : String) (use_mock_fallback : Bool) (use_mock_only : Option Bool)
    (hmode : use_mock_only.getD DEV_MODE = true) (hstate : stripStr state ≠ "") :
    ((get_crop_prices beh DEV_MODE today state district crop_name price_date
        data_source use_mock_fallback use_mock_only).2 = [.mock]) ∧
    (∃ resp, (get_crop_prices beh DEV_MODE today state district crop_name price_date
        data_source use_mock_fallback use_mock_only).1 = .ok resp ∧
      resp.data = postFilter (normOpt district) (normOpt crop_name)
        (get_mock_prices (pyTitle (stripStr state)) (normOpt district)
          (normOpt crop_name) price_date today) ∧
      (resp.success = true ↔ resp.data ≠ []) ∧
      resp.count = resp.data.length) ∧
    (get_crop_prices beh DEV_MODE today "Atlantis" none none price_date
        data_source use_mock_fallback (some true)
      = (.ok (mkPriceResponse false [] 0 "Atlantis" none none
          (some "Mock data provider unavailable")), [.mock])) := by
  refine ⟨?_, ?_, ?_⟩
  · rw [get_crop_prices, validCond_false hstate]
    simp only [Bool.false_eq_true, if_false, hmode, if_true]
    simp only [mockOnlyPath]
    split <;> rfl
  · rw [get_crop_prices, validCond_false hstate]
    simp only [Bool.false_eq_true, if_false, hmode, if_true]
    simp only [mockOnlyPath]
    by_cases hp : (get_mock_prices (pyTitle (stripStr state)) (normOpt district)
        (normOpt crop_name) price_date today).isEmpty
    · rw [if_neg (by simp [hp])]
      refine ⟨_, rfl, ?_, ?_, rfl⟩
      · rw [List.isEmpty_iff.mp hp, postFilter_nil]
        rfl
      · simp [mkPriceResponse]
    · rw [if_pos (by simp [hp])]
      refine ⟨_, rfl, rfl, ?_, rfl⟩
      have hne : get_mock_prices (pyTitle (stripStr state)) (normOpt district)
          (normOpt crop_name) price_date today ≠ [] := by
        intro h
        rw [h] at hp
        exact hp rfl
      simp only [mkPriceResponse, postFilter_mock]
      constructor
      · intro _
        exact hne
      · intro _
        trivial
  · rfl

/-- C8 witness: the mock-only call for Delhi emits exactly one mock event and
returns a response whose success flag reflects non-emptiness of its data. -/
theorem mock_only_path_terminal_witness :
    (get_crop_prices (fun _ _ => .recoverable .network "down") false 0 "Delhi"
      none none none "agmarknet" true (some true)).2 = [.mock] ∧
    ∃ resp, (get_crop_prices (fun _ _ => .recoverable .network "down") false 0 "Delhi"
      none none none "agmarknet" true (some true)).1 = .ok resp ∧
      (resp.success = true ↔ resp.data ≠ []) := by
  have h := mock_only_path_terminal (fun _ _ => .recoverable .network "down") false 0
    "Delhi" none none none "agmarknet" true (some true) (by decide) (by decide)
  obtain ⟨ht, ⟨resp, h1, h2, h3, h4⟩, _⟩ := h
  exact ⟨ht, resp, h1, h3⟩


/-- C10: `data_source` is compared case-insensitively — strings with the same
lowering select the same adapter, and with a known adapter the whole call is
unchanged by recasing — while a string naming no adapter makes the first live
attempt raise, wrapped into the orchestration error, aborting immediately
with an empty trace: no retry, no failover, no mock fallback. -/
theorem data_source_handling (ds₁ ds₂ : String)
    (beh : Source → Nat → FetchResult) (DEV_MODE : Bool) (today : Nat)
    (state : String) (district crop_name : Option String) (price_date : Option Nat)
    (use_mock_fallback : Bool) (use_mock_only : Option Bool)
    (hlow : lowerStr ds₁ = lowerStr ds₂) :
    sourceOf ds₁ = sourceOf ds₂ ∧
    (∀ p, sourceOf ds₁ = some p →
      get_crop_prices beh DEV_MODE today state district crop_name price_date ds₁
          use_mock_fallback use_mock_only
        = get_crop_prices beh DEV_MODE today state district crop_name price_date ds₂
          use_mock_fallback use_mock_only) ∧
    (∀ ds, sourceOf ds = none → stripStr state ≠ "" →
      use_mock_only.getD DEV_MODE = false →
      get_crop_prices beh DEV_MODE today state district crop_name price_date ds
          use_mock_fallback use_mock_only
        = (.error (.cropPriceError
            ("Unexpected error fetching prices: Unknown data source: " ++ ds)), [])) := by
  have hsrc : sourceOf ds₁ = sourceOf ds₂ := by
    simp only [sourceOf, hlow]
  refine ⟨hsrc, ?_, ?_⟩
  · intro p hp
    have hp₂ : sourceOf ds₂ = some p := hsrc.symm.trans hp
    rw [get_crop_prices, get_crop_prices]
    by_cases hval : (state == "" || stripStr state == "") = true
    · rw [if_pos hval, if_pos hval]
    · rw [if_neg hval, if_neg hval]
      simp only [hp, hp₂]
  · intro ds hnone hstate hmode
    rw [get_crop_prices, validCond_false hstate]
    simp only [Bool.false_eq_true, if_false, hmode, hnone]

/-- C10 witness: an upper-cased source name behaves exactly as the lower-cased
one, and an unknown source aborts at once with the wrapped error and no
events. -/
theorem data_source_handling_witness :
    sourceOf "AGMARKNET" = sourceOf "agmarknet" ∧
    get_crop_prices (fun _ _ => .recoverable .network "down") false 0 "Delhi"
        none none none "AGMARKNET" true (some false)
      = get_crop_prices (fun _ _ => .recoverable .network "down") false 0 "Delhi"
        none none none "agmarknet" true (some false) ∧
    get_crop_prices (fun _ _ => .recoverable .network "down") false 0 "Delhi"
        none none none "csv" true (some false)
      = (.error (.cropPriceError
          "Unexpected error fetching prices: Unknown data source: csv"), []) := by
  have h := data_source_handling "AGMARKNET" "agmarknet"
    (fun _ _ => .recoverable .network "down") false 0 "Delhi" none none none
    true (some false) (by decide)
  refine ⟨h.1, h.2.1 .agmarknet (by decide), ?_⟩
  have h3 := h.2.2 "csv" (by decide) (by decide) (by decide)
  exact h3


/-- Evaluation of the retry loop when every attempt raises a recoverable
error: three attempts, linear backoff sleeps between them, the last message
recorded. -/
lemma retryLoop_allFail (beh : Source → Nat → FetchResult) (p : Source)
    (k₀ k₁ k₂ : ErrKind) (m₀ m₁ m₂ : String)
    (hb0 : beh p 0 = .recoverable k₀ m₀) (hb1 : beh p 1 = .recoverable k₁ m₁)
    (hb2 : beh p 2 = .recoverable k₂ m₂) :
    retryLoop beh p 0 MAX_RETRIES [] none =
      .done [] (some m₂) [.fetch p, .sleep (RETRY_DELAY * 1), .fetch p,
        .sleep (RETRY_DELAY * 2), .fetch p] := by
  simp [retryLoop, MAX_RETRIES, RETRY_DELAY, hb0, hb1, hb2, LoopOutcome.withEvents]


lemma otherSource_ne (p : Source) : otherSource p ≠ p := by
  cases p <;> simp [otherSource]

lemma countEvent_append (e : Event) (t₁ t₂ : List Event) :
    countEvent e (t₁ ++ t₂) = countEvent e t₁ + countEvent e t₂ := by
  induction t₁ with
  | nil => simp [countEvent]
  | cons x xs ih => simp [countEvent, ih]; omega

lemma countSleeps_append (t₁ t₂ : List Event) :
    countSleeps (t₁ ++ t₂) = countSleeps t₁ + countSleeps t₂ := by
  induction t₁ with
  | nil => simp [countSleeps]
  | cons x xs ih => cases x <;> simp [countSleeps, ih] <;> omega

lemma sleepTotal_append (t₁ t₂ : List Event) :
    sleepTotal (t₁ ++ t₂) = sleepTotal t₁ + sleepTotal t₂ := by
  induction t₁ with
  | nil => simp [sleepTotal]
  | cons x xs ih => cases x <;> simp [sleepTotal, ih] <;> omega

lemma countEvent_eq_zero {e : Event} {t : List Event} (h : ∀ x ∈ t, x ≠ e) :
    countEvent e t = 0 := by
  induction t with
  | nil => rfl
  | cons x xs ih =>
    have hx : (x == e) = false := by
      simp [beq_iff_eq]
      exact h x (List.mem_cons_self x xs)
    simp [countEvent, hx]
    exact ih (fun y hy => h y (List.mem_cons_of_mem x hy))

lemma countSleeps_eq_zero {t : List Event} (h : ∀ x ∈ t, ∀ n, x ≠ .sleep n) :
    countSleeps t = 0 := by
  induction t with
  | nil => rfl
  | cons x xs ih =>
    have ih2 := ih (fun y hy => h y (List.mem_cons_of_mem x hy))
    cases x with
    | sleep n => exact absurd rfl (h _ (List.mem_cons_self _ xs) n)
    | fetch s => simpa [countSleeps] using ih2
    | mock => simpa [countSleeps] using ih2

lemma sleepTotal_eq_zero {t : List Event} (h : ∀ x ∈ t, ∀ n, x ≠ .sleep n) :
    sleepTotal t = 0 := by
  induction t with
  | nil => rfl
  | cons x xs ih =>
    have ih2 := ih (fun y hy => h y (List.mem_cons_of_mem x hy))
    cases x with
    | sleep n => exact absurd rfl (h _ (List.mem_cons_self _ xs) n)
    | fetch s => simpa [sleepTotal] using ih2
    | mock => simpa [sleepTotal] using ih2

lemma failoverStep_trace (beh : Source → Nat → FetchResult) (p : Source)
    (prices : List CropPrice) (le : Option String) (t : List Event) :
    ∃ rest, (failoverStep beh p prices le t).2 = t ++ rest ∧
      ∀ e ∈ rest, e = .fetch (otherSource p) := by
  simp only [failoverStep]
  split
  · exact ⟨[.fetch (otherSource p)], rfl, by simp⟩
  · exact ⟨[], by simp, by simp⟩

lemma mockStep_trace (today : Nat) (state : String) (district crop_name : Option String)
    (price_date : Option Nat) (fb : Bool) (prices : List CropPrice) (t : List Event) :
    ∃ rest, (mockStep today state district crop_name price_date fb prices t).2 = t ++ rest ∧
      ∀ e ∈ rest, e = .mock := by
  simp only [mockStep]
  split
  · exact ⟨[.mock], rfl, by simp⟩
  · exact ⟨[], by simp, by simp⟩

lemma finalize_trace (state : String) (district crop_name : Option String)
    (lastError : Option String) (prices : List CropPrice) (t : List Event) :
    (finalize state district crop_name lastError prices t).2 = t := by
  simp only [finalize]
  split <;> split <;> rfl


/-- Live-mode entry: with a valid state, `use_mock_only = some false` and a
known source, the orchestrator runs the live path on normalized filters. -/
lemma get_crop_prices_live (beh : Source → Nat → FetchResult) (DEV_MODE : Bool)
    (today : Nat) (state : String) (district crop_name : Option String)
    (price_date : Option Nat) (data_source : String) (use_mock_fallback : Bool)
    (p : Source) (hstate : stripStr state ≠ "") (hsrc : sourceOf data_source = some p) :
    get_crop_prices beh DEV_MODE today state district crop_name price_date
        data_source use_mock_fallback (some false)
      = livePath beh p today (pyTitle (stripStr state)) (normOpt district)
        (normOpt crop_name) price_date use_mock_fallback := by
  rw [get_crop_prices, validCond_false hstate]
  simp only [Bool.false_eq_true, if_false, Option.getD_some, hsrc]

/-- When the loop leaves non-empty records, failover and mock fallback are
both skipped and finalization runs on the loop's records and trace. -/
lemma livePath_done_nonempty (beh : Source → Nat → FetchResult) (p : Source)
    (today : Nat) (state : String) (district crop_name : Option String)
    (price_date : Option Nat) (fb : Bool) (ps : List CropPrice)
    (le : Option String) (t : List Event)
    (hloop : retryLoop beh p 0 MAX_RETRIES [] none = .done ps le t)
    (hne : ps.isEmpty = false) :
    livePath beh p today state district crop_name price_date fb
      = finalize state district crop_name le ps t := by
  simp only [livePath, hloop, failoverStep, mockStep, hne, Bool.false_and,
    Bool.false_eq_true, if_false]

/-- C1: in live mode with a known source, when every attempt raises a
`NetworkError`/`DataSourceError` the orchestrator makes exactly `MAX_RETRIES`
adapter calls to the primary, sleeping `RETRY_DELAY * attempt_number` seconds
between consecutive attempts, for a total delay of
`RETRY_DELAY * (1 + 2)`; and on the first attempt returning a non-empty
record list it stops at once: `k` failures then a success yield exactly
`k + 1` primary calls, `k` sleeps, and the matching backoff total. -/
theorem retry_backoff_schedule (beh : Source → Nat → FetchResult)
    (DEV_MODE : Bool) (today : Nat) (state : String)
    (district crop_name : Option String) (price_date : Option Nat)
    (data_source : String) (use_mock_fallback : Bool) (p : Source)
    (k₀ k₁ k₂ : ErrKind) (m₀ m₁ m₂ : String)
    (hstate : stripStr state ≠ "") (hsrc : sourceOf data_source = some p)
    (hb0 : beh p 0 = .recoverable k₀ m₀) (hb1 : beh p 1 = .recoverable k₁ m₁)
    (hb2 : beh p 2 = .recoverable k₂ m₂) :
    (∃ rest, (get_crop_prices beh DEV_MODE today state district crop_name price_date
        data_source use_mock_fallback (some false)).2
      = [.fetch p, .sleep (RETRY_DELAY * 1), .fetch p, .sleep (RETRY_DELAY * 2),
         .fetch p] ++ rest ∧
      (∀ e ∈ rest, e ≠ .fetch p ∧ ∀ n, e ≠ .sleep n) ∧
      countEvent (.fetch p) ((get_crop_prices beh DEV_MODE today state district
        crop_name price_date data_source use_mock_fallback (some false)).2)
        = MAX_RETRIES ∧
      countSleeps ((get_crop_prices beh DEV_MODE today state district crop_name
        price_date data_source use_mock_fallback (some false)).2)
        = MAX_RETRIES - 1 ∧
      sleepTotal ((get_crop_prices beh DEV_MODE today state district crop_name
        price_date data_source use_mock_fallback (some false)).2)
        = RETRY_DELAY * (1 + 2)) ∧
    (∀ (beh₂ : Source → Nat → FetchResult) (k : Nat) (ps : List CropPrice),
      k < MAX_RETRIES →
      (∀ i, i < k → ∃ kk mm, beh₂ p i = .recoverable kk mm) →
      beh₂ p k = .ok ps → ps ≠ [] →
      countEvent (.fetch p) ((get_crop_prices beh₂ DEV_MODE today state district
        crop_name price_date data_source use_mock_fallback (some false)).2) = k + 1 ∧
      countSleeps ((get_crop_prices beh₂ DEV_MODE today state district crop_name
        price_date data_source use_mock_fallback (some false)).2) = k ∧
      sleepTotal ((get_crop_prices beh₂ DEV_MODE today state district crop_name
        price_date data_source use_mock_fallback (some false)).2)
        = RETRY_DELAY * (k * (k + 1) / 2)) := by
  constructor
  · have hloop := retryLoop_allFail beh p k₀ k₁ k₂ m₀ m₁ m₂ hb0 hb1 hb2
    rw [get_crop_prices_live beh DEV_MODE today state district crop_name price_date
      data_source use_mock_fallback p hstate hsrc]
    have hlive : livePath beh p today (pyTitle (stripStr state)) (normOpt district)
        (normOpt crop_name) price_date use_mock_fallback
        = finalize (pyTitle (stripStr state)) (normOpt district) (normOpt crop_name)
            (some m₂)
            (mockStep today (pyTitle (stripStr state)) (normOpt district)
              (normOpt crop_name) price_date use_mock_fallback
              (failoverStep beh p [] (some m₂)
                [.fetch p, .sleep (RETRY_DELAY * 1), .fetch p,
                 .sleep (RETRY_DELAY * 2), .fetch p]).1
              (failoverStep beh p [] (some m₂)
                [.fetch p, .sleep (RETRY_DELAY * 1), .fetch p,
                 .sleep (RETRY_DELAY * 2), .fetch p]).2).1
            (mockStep today (pyTitle (stripStr state)) (normOpt district)
              (normOpt crop_name) price_date use_mock_fallback
              (failoverStep beh p [] (some m₂)
                [.fetch p, .sleep (RETRY_DELAY * 1), .fetch p,
                 .sleep (RETRY_DELAY * 2), .fetch p]).1
              (failoverStep beh p [] (some m₂)
                [.fetch p, .sleep (RETRY_DELAY * 1), .fetch p,
                 .sleep (RETRY_DELAY * 2), .fetch p]).2).2 := by
      simp only [livePath, hloop]
    rw [hlive]
    obtain ⟨r1, hr1, he1⟩ := failoverStep_trace beh p [] (some m₂)
      [.fetch p, .sleep (RETRY_DELAY * 1), .fetch p, .sleep (RETRY_DELAY * 2), .fetch p]
    obtain ⟨r2, hr2, he2⟩ := mockStep_trace today (pyTitle (stripStr state))
      (normOpt district) (normOpt crop_name) price_date use_mock_fallback
      (failoverStep beh p [] (some m₂)
        [.fetch p, .sleep (RETRY_DELAY * 1), .fetch p,
         .sleep (RETRY_DELAY * 2), .fetch p]).1
      (failoverStep beh p [] (some m₂)
        [.fetch p, .sleep (RETRY_DELAY * 1), .fetch p,
         .sleep (RETRY_DELAY * 2), .fetch p]).2
    rw [finalize_trace, hr2, hr1, List.append_assoc]
    have hrest : ∀ e ∈ r1 ++ r2, e ≠ .fetch p ∧ ∀ n, e ≠ .sleep n := by
      intro e he
      rcases List.mem_append.mp he with h | h
      · rw [he1 e h]
        refine ⟨?_, ?_⟩
        · intro hc
          apply otherSource_ne p
          simpa using hc
        · intro n hc
          exact Event.noConfusion hc
      · rw [he2 e h]
        exact ⟨fun hc => Event.noConfusion hc, fun n hc => Event.noConfusion hc⟩
    refine ⟨r1 ++ r2, rfl, hrest, ?_, ?_, ?_⟩
    · rw [countEvent_append]
      rw [countEvent_eq_zero (fun x hx => (hrest x hx).1)]
      simp [countEvent, MAX_RETRIES]
    · rw [countSleeps_append]
      rw [countSleeps_eq_zero (fun x hx => (hrest x hx).2)]
      simp [countSleeps, MAX_RETRIES]
    · rw [sleepTotal_append]
      rw [sleepTotal_eq_zero (fun x hx => (hrest x hx).2)]
      simp [sleepTotal, RETRY_DELAY]
  · intro beh₂ k ps hk hprev hok hne
    have hpe : ps.isEmpty = false := by
      cases ps
      · exact absurd rfl hne
      · rfl
    simp only [MAX_RETRIES] at hk
    interval_cases k
    · have hloop2 : retryLoop beh₂ p 0 MAX_RETRIES [] none
          = .done ps none [.fetch p] := by
        simp [retryLoop, MAX_RETRIES, hok, hpe]
      rw [get_crop_prices_live beh₂ DEV_MODE today state district crop_name price_date
        data_source use_mock_fallback p hstate hsrc,
        livePath_done_nonempty beh₂ p today (pyTitle (stripStr state)) (normOpt district)
          (normOpt crop_name) price_date use_mock_fallback ps none [.fetch p] hloop2 hpe,
        finalize_trace]
      refine ⟨by simp [countEvent], by simp [countSleeps], by simp [sleepTotal]⟩
    · obtain ⟨kk0, mm0, h0⟩ := hprev 0 (by omega)
      have hloop2 : retryLoop beh₂ p 0 MAX_RETRIES [] none
          = .done ps (some mm0) [.fetch p, .sleep (RETRY_DELAY * 1), .fetch p] := by
        simp [retryLoop, MAX_RETRIES, h0, hok, hpe, LoopOutcome.withEvents]
      rw [get_crop_prices_live beh₂ DEV_MODE today state district crop_name price_date
        data_source use_mock_fallback p hstate hsrc,
        livePath_done_nonempty beh₂ p today (pyTitle (stripStr state)) (normOpt district)
          (normOpt crop_name) price_date use_mock_fallback ps (some mm0)
          [.fetch p, .sleep (RETRY_DELAY * 1), .fetch p] hloop2 hpe,
        finalize_trace]
      refine ⟨by simp [countEvent], by simp [countSleeps], by simp [sleepTotal, RETRY_DELAY]⟩
    · obtain ⟨kk0, mm0, h0⟩ := hprev 0 (by omega)
      obtain ⟨kk1, mm1, h1⟩ := hprev 1 (by omega)
      have hloop2 : retryLoop beh₂ p 0 MAX_RETRIES [] none
          = .done ps (some mm1) [.fetch p, .sleep (RETRY_DELAY * 1), .fetch p,
            .sleep (RETRY_DELAY * 2), .fetch p] := by
        simp [retryLoop, MAX_RETRIES, h0, h1, hok, hpe, LoopOutcome.withEvents]
      rw [get_crop_prices_live beh₂ DEV_MODE today state district crop_name price_date
        data_source use_mock_fallback p hstate hsrc,
        livePath_done_nonempty beh₂ p today (pyTitle (stripStr state)) (normOpt district)
          (normOpt crop_name) price_date use_mock_fallback ps (some mm1)
          [.fetch p, .sleep (RETRY_DELAY * 1), .fetch p,
           .sleep (RETRY_DELAY * 2), .fetch p] hloop2 hpe,
        finalize_trace]
      refine ⟨by simp [countEvent], by simp [countSleeps], by simp [sleepTotal, RETRY_DELAY]⟩



/-- C1 witness: with an adapter that always raises a network error, the call
for Delhi makes exactly `MAX_RETRIES` primary attempts and sleeps the full
linear backoff total. -/
theorem retry_backoff_schedule_witness :
    countEvent (.fetch .agmarknet)
      ((get_crop_prices (fun _ _ => .recoverable .network "down") false 0 "Delhi"
        none none none "agmarknet" true (some false)).2) = MAX_RETRIES ∧
    sleepTotal ((get_crop_prices (fun _ _ => .recoverable .network "down") false 0
        "Delhi" none none none "agmarknet" true (some false)).2)
      = RETRY_DELAY * (1 + 2) := by
  have h := retry_backoff_schedule (fun _ _ => .recoverable .network "down") false 0
    "Delhi" none none none "agmarknet" true .agmarknet .network .network .network
    "down" "down" "down" (by decide) (by decide) rfl rfl rfl
  obtain ⟨⟨rest, hpre, hrest, hc, hs, ht⟩, _⟩ := h
  exact ⟨hc, ht⟩


lemma LoopOutcome.trace_withEvents (es : List Event) (o : LoopOutcome) :
    (o.withEvents es).trace = es ++ o.trace := by
  cases o <;> rfl

/-- Every event the retry loop emits is a primary fetch or a sleep. -/
lemma retryLoop_events (beh : Source → Nat → FetchResult) (p : Source) :
    ∀ fuel attempt prices le, ∀ e ∈ (retryLoop beh p attempt fuel prices le).trace,
      e = .fetch p ∨ ∃ n, e = .sleep n := by
  intro fuel
  induction fuel with
  | zero =>
    intro attempt prices le e he
    simp [retryLoop, LoopOutcome.trace] at he
  | succ f ih =>
    intro attempt prices le e he
    rw [retryLoop] at he
    cases hb : beh p attempt with
    | ok ps =>
      simp only [hb] at he
      by_cases hpe : ps.isEmpty
      · rw [if_pos hpe, LoopOutcome.trace_withEvents] at he
        rcases List.mem_append.mp he with h | h
        · left
          simpa using h
        · exact ih (attempt + 1) ps le e h
      · rw [if_neg hpe] at he
        left
        simpa [LoopOutcome.trace] using he
    | recoverable kk mm =>
      simp only [hb] at he
      by_cases hf : f = 0
      · rw [if_pos hf] at he
        left
        simpa [LoopOutcome.trace] using he
      · rw [if_neg hf, LoopOutcome.trace_withEvents] at he
        rcases List.mem_append.mp he with h | h
        · simp at h
          rcases h with h | h
          · exact Or.inl h
          · exact Or.inr ⟨_, h⟩
        · exact ih (attempt + 1) prices (some mm) e h
    | fatal mm =>
      simp only [hb] at he
      left
      simpa [LoopOutcome.trace] using he


/-- C2 counterexample: the primary's final attempt returns an empty record
list without raising, yet failover still runs, because an earlier attempt
had recorded `last_error`. -/
theorem failover_after_final_empty_attempt :
    behEmptyAfterFail .agmarknet 2 = .ok [] ∧
    (Event.fetch .enam) ∈ (get_crop_prices behEmptyAfterFail false 0 "Delhi" none none
      none "agmarknet" false (some false)).2 := by
  constructor
  · rfl
  · decide

/-- C2 amended: in live mode the failover call of the other source happens
exactly once when the loop left no records and recorded a recoverable error,
and not at all otherwise; whatever the failover attempt does, the call still
returns a response rather than propagating an exception. -/
theorem failover_iff_error_recorded (beh : Source → Nat → FetchResult)
    (DEV_MODE : Bool) (today : Nat) (state : String)
    (district crop_name : Option String) (price_date : Option Nat)
    (data_source : String) (use_mock_fallback : Bool) (p : Source)
    (prices : List CropPrice) (lastErr : Option String) (ltrace : List Event)
    (hstate : stripStr state ≠ "") (hsrc : sourceOf data_source = some p)
    (hloop : retryLoop beh p 0 MAX_RETRIES [] none = .done prices lastErr ltrace) :
    countEvent (.fetch (otherSource p))
      ((get_crop_prices beh DEV_MODE today state district crop_name price_date
        data_source use_mock_fallback (some false)).2)
      = (if prices = [] ∧ lastErr.isSome = true then 1 else 0) ∧
    (∃ resp, (get_crop_prices beh DEV_MODE today state district crop_name price_date
        data_source use_mock_fallback (some false)).1 = .ok resp) := by
  rw [get_crop_prices_live beh DEV_MODE today state district crop_name price_date
    data_source use_mock_fallback p hstate hsrc]
  have hltrace : countEvent (.fetch (otherSource p)) ltrace = 0 := by
    apply countEvent_eq_zero
    intro x hx
    have hmem : x ∈ (retryLoop beh p 0 MAX_RETRIES [] none).trace := by
      rw [hloop]
      exact hx
    rcases retryLoop_events beh p MAX_RETRIES 0 [] none x hmem with h | ⟨n, h⟩
    · rw [h]
      intro hc
      exact otherSource_ne p (Event.fetch.inj hc).symm
    · rw [h]
      intro hc
      exact Event.noConfusion hc
  constructor
  · simp only [livePath, hloop]
    rw [finalize_trace]
    obtain ⟨r2, hr2, he2⟩ := mockStep_trace today (pyTitle (stripStr state))
      (normOpt district) (normOpt crop_name) price_date use_mock_fallback
      (failoverStep beh p prices lastErr ltrace).1
      (failoverStep beh p prices lastErr ltrace).2
    rw [hr2, countEvent_append]
    have hz : countEvent (Event.fetch (otherSource p)) r2 = 0 := by
      apply countEvent_eq_zero
      intro x hx
      rw [he2 x hx]
      intro hc
      exact Event.noConfusion hc
    rw [hz]
    by_cases hcond : (prices.isEmpty && lastErr.isSome) = true
    · have hsnd : (failoverStep beh p prices lastErr ltrace).2
          = ltrace ++ [.fetch (otherSource p)] := by
        rw [failoverStep, if_pos hcond]
      rw [hsnd, countEvent_append, hltrace]
      simp only [Bool.and_eq_true] at hcond
      rw [if_pos ⟨List.isEmpty_iff.mp hcond.1, hcond.2⟩]
      simp [countEvent]
    · have hsnd : (failoverStep beh p prices lastErr ltrace).2 = ltrace := by
        rw [failoverStep, if_neg hcond]
      rw [hsnd, hltrace]
      rw [if_neg ?hn]
      case hn =>
        rintro ⟨h1, h2⟩
        apply hcond
        simp only [Bool.and_eq_true]
        exact ⟨List.isEmpty_iff.mpr h1, h2⟩
  · simp only [livePath, hloop]
    exact finalize_isOk _ _ _ _ _ _



/-- C2 amended witness: with an always-failing primary, the e-NAM failover is
called exactly once and the call still returns a response. -/
theorem failover_iff_error_recorded_witness :
    countEvent (.fetch .enam)
      ((get_crop_prices (fun _ _ => .recoverable .network "down") false 0 "Delhi"
        none none none "agmarknet" true (some false)).2) = 1 ∧
    ∃ resp, (get_crop_prices (fun _ _ => .recoverable .network "down") false 0 "Delhi"
        none none none "agmarknet" true (some false)).1 = .ok resp := by
  have h := failover_iff_error_recorded (fun _ _ => .recoverable .network "down")
    false 0 "Delhi" none none none "agmarknet" true .agmarknet
    [] (some "down")
    [.fetch .agmarknet, .sleep 2, .fetch .agmarknet, .sleep 4, .fetch .agmarknet]
    (by decide) (by decide) (by decide)
  refine ⟨?_, h.2⟩
  simpa using h.1


/-- Finalizing an empty record set yields the failure response with the
composed message, unchanged trace. -/
lemma finalize_nil (st : String) (d c : Option String) (le : Option String)
    (t : List Event) :
    finalize st d c le [] t
      = (.ok (mkPriceResponse false [] 0 st d c (some (failureMessage st d c le))), t) := by
  rfl

/-- The failure message names the requested state up front and, when an error
was recorded, ends with it. -/
lemma failureMessage_decomp (st : String) (d c : Option String) (err : String) :
    ∃ mid, failureMessage st d c (some err)
      = "No price data found for state=" ++ st ++ mid ++ ". Last error: " ++ err := by
  rcases d with _ | ds <;> rcases c with _ | cs <;> simp only [failureMessage]
  · exact ⟨"", by simp⟩
  · by_cases hcs : cs = ""
    · have hc : ¬ ((cs != "") = true) := by simp [hcs]
      refine ⟨"", ?_⟩
      rw [if_neg hc]
      simp
    · refine ⟨", crop=" ++ cs, ?_⟩
      rw [if_pos (bne_iff_ne.mpr hcs)]
      simp [String.append_assoc]
  · by_cases hds : ds = ""
    · have hc : ¬ ((ds != "") = true) := by simp [hds]
      refine ⟨"", ?_⟩
      rw [if_neg hc]
      simp
    · refine ⟨", district=" ++ ds, ?_⟩
      rw [if_pos (bne_iff_ne.mpr hds)]
      simp [String.append_assoc]
  · by_cases hds : ds = "" <;> by_cases hcs : cs = ""
    · have hc1 : ¬ ((ds != "") = true) := by simp [hds]
      have hc2 : ¬ ((cs != "") = true) := by simp [hcs]
      refine ⟨"", ?_⟩
      rw [if_neg hc1, if_neg hc2]
      simp
    · have hc1 : ¬ ((ds != "") = true) := by simp [hds]
      refine ⟨", crop=" ++ cs, ?_⟩
      rw [if_neg hc1, if_pos (bne_iff_ne.mpr hcs)]
      simp [String.append_assoc]
    · have hc2 : ¬ ((cs != "") = true) := by simp [hcs]
      refine ⟨", district=" ++ ds, ?_⟩
      rw [if_pos (bne_iff_ne.mpr hds), if_neg hc2]
      simp [String.append_assoc]
    · refine ⟨", district=" ++ ds ++ ", crop=" ++ cs, ?_⟩
      rw [if_pos (bne_iff_ne.mpr hds), if_pos (bne_iff_ne.mpr hcs)]
      simp [String.append_assoc]

/-- A successful response out of finalization has a matching count, non-empty
data and the success message. -/
lemma finalize_ok_success (st : String) (d c : Option String) (le : Option String)
    (prices : List CropPrice) (t : List Event) (resp : PriceResponse)
    (h : (finalize st d c le prices t).1 = .ok resp) (hs : resp.success = true) :
    resp.count = resp.data.length ∧ resp.data ≠ [] ∧
      resp.message = some ("Successfully fetched " ++ toString resp.data.length
        ++ " price entries") := by
  revert h
  simp only [finalize]
  split
  · split
    next hq =>
      intro h
      rw [Except.ok.injEq] at h
      rw [← h] at hs
      simp [mkPriceResponse] at hs
    next hq =>
      intro h
      rw [Except.ok.injEq] at h
      subst h
      refine ⟨rfl, ?_, rfl⟩
      intro hnil
      apply hq
      have hq2 : postFilter d c prices = [] := hnil
      rw [hq2]
      rfl
  · split
    next hq =>
      intro h
      rw [Except.ok.injEq] at h
      rw [← h] at hs
      simp [mkPriceResponse] at hs
    next hq =>
      intro h
      rw [Except.ok.injEq] at h
      subst h
      refine ⟨rfl, ?_, rfl⟩
      intro hnil
      apply hq
      have hq2 : prices = [] := hnil
      rw [hq2]
      rfl

/-- Any successful live-path response has a matching count, non-empty data
and the success message. -/
lemma livePath_ok_success (beh : Source → Nat → FetchResult) (p : Source)
    (today : Nat) (st : String) (d c : Option String) (pd : Option Nat)
    (fb : Bool) (resp : PriceResponse)
    (h : (livePath beh p today st d c pd fb).1 = .ok resp)
    (hs : resp.success = true) :
    resp.count = resp.data.length ∧ resp.data ≠ [] ∧
      resp.message = some ("Successfully fetched " ++ toString resp.data.length
        ++ " price entries") := by
  rw [livePath] at h
  cases hloop : retryLoop beh p 0 MAX_RETRIES [] none with
  | aborted m t =>
    rw [hloop] at h
    simp at h
  | done prices le t =>
    rw [hloop] at h
    exact finalize_ok_success _ _ _ _ _ _ _ h hs



/-- C4: in live mode with a valid state, when every primary attempt raises a
recoverable error, the single failover attempt yields no records, and the
mock fallback returns none for the normalized query, the orchestrator does
not raise: it returns a response with success false, empty data, count 0 and
the composed message, which names the requested state and ends with the last
recorded error; and any successful live response instead carries a matching
count, non-empty data and the success message. -/
theorem exhausted_fallbacks_failure_response (beh : Source → Nat → FetchResult)
    (DEV_MODE : Bool) (today : Nat) (state : String)
    (district crop_name : Option String) (price_date : Option Nat)
    (data_source : String) (p : Source) (k₀ k₁ k₂ : ErrKind) (m₀ m₁ m₂ : String)
    (hstate : stripStr state ≠ "") (hsrc : sourceOf data_source = some p)
    (hb0 : beh p 0 = .recoverable k₀ m₀) (hb1 : beh p 1 = .recoverable k₁ m₁)
    (hb2 : beh p 2 = .recoverable k₂ m₂)
    (hfo : ∀ ps, beh (otherSource p) 0 = .ok ps → ps = [])
    (hmock : get_mock_prices (pyTitle (stripStr state)) (normOpt district)
      (normOpt crop_name) price_date today = []) :
    (∃ resp, (get_crop_prices beh DEV_MODE today state district crop_name price_date
        data_source true (some false)).1 = .ok resp ∧
      resp.success = false ∧ resp.data = [] ∧ resp.count = 0 ∧
      resp.message = some (failureMessage (pyTitle (stripStr state))
        (normOpt district) (normOpt crop_name) (some m₂)) ∧
      ∃ mid, failureMessage (pyTitle (stripStr state)) (normOpt district)
          (normOpt crop_name) (some m₂)
        = "No price data found for state=" ++ pyTitle (stripStr state) ++ mid
          ++ ". Last error: " ++ m₂) ∧
    (∀ (beh₂ : Source → Nat → FetchResult) (resp : PriceResponse),
      (get_crop_prices beh₂ DEV_MODE today state district crop_name price_date
        data_source true (some false)).1 = .ok resp →
      resp.success = true →
      resp.count = resp.data.length ∧ resp.data ≠ [] ∧
      resp.message = some ("Successfully fetched " ++ toString resp.data.length
        ++ " price entries")) := by
  constructor
  · have hloop := retryLoop_allFail beh p k₀ k₁ k₂ m₀ m₁ m₂ hb0 hb1 hb2
    rw [get_crop_prices_live beh DEV_MODE today state district crop_name price_date
      data_source true p hstate hsrc]
    simp only [livePath, hloop]
    have hcond : (([] : List CropPrice).isEmpty && (some m₂).isSome) = true := rfl
    have hfo1 : (failoverStep beh p [] (some m₂)
        [.fetch p, .sleep (RETRY_DELAY * 1), .fetch p, .sleep (RETRY_DELAY * 2),
         .fetch p]).1 = [] := by
      rw [failoverStep, if_pos hcond]
      cases hb : beh (otherSource p) 0 with
      | ok ps =>
        simp only [hb]
        exact hfo ps hb
      | recoverable kk mm => simp [hb]
      | fatal mm => simp [hb]
    have hm1 : (mockStep today (pyTitle (stripStr state)) (normOpt district)
        (normOpt crop_name) price_date true
        (failoverStep beh p [] (some m₂)
          [.fetch p, .sleep (RETRY_DELAY * 1), .fetch p, .sleep (RETRY_DELAY * 2),
           .fetch p]).1
        (failoverStep beh p [] (some m₂)
          [.fetch p, .sleep (RETRY_DELAY * 1), .fetch p, .sleep (RETRY_DELAY * 2),
           .fetch p]).2).1 = [] := by
      rw [mockStep, hfo1]
      simp [hmock]
    rw [show (finalize (pyTitle (stripStr state)) (normOpt district) (normOpt crop_name)
        (some m₂)
        (mockStep today (pyTitle (stripStr state)) (normOpt district)
          (normOpt crop_name) price_date true
          (failoverStep beh p [] (some m₂)
            [.fetch p, .sleep (RETRY_DELAY * 1), .fetch p, .sleep (RETRY_DELAY * 2),
             .fetch p]).1
          (failoverStep beh p [] (some m₂)
            [.fetch p, .sleep (RETRY_DELAY * 1), .fetch p, .sleep (RETRY_DELAY * 2),
             .fetch p]).2).1
        (mockStep today (pyTitle (stripStr state)) (normOpt district)
          (normOpt crop_name) price_date true
          (failoverStep beh p [] (some m₂)
            [.fetch p, .sleep (RETRY_DELAY * 1), .fetch p, .sleep (RETRY_DELAY * 2),
             .fetch p]).1
          (failoverStep beh p [] (some m₂)
            [.fetch p, .sleep (RETRY_DELAY * 1), .fetch p, .sleep (RETRY_DELAY * 2),
             .fetch p]).2).2).1
      = .ok (mkPriceResponse false [] 0 (pyTitle (stripStr state)) (normOpt district)
          (normOpt crop_name) (some (failureMessage (pyTitle (stripStr state))
            (normOpt district) (normOpt crop_name) (some m₂)))) from by rw [hm1, finalize_nil]]
    exact ⟨_, rfl, rfl, rfl, rfl, rfl,
      failureMessage_decomp (pyTitle (stripStr state)) (normOpt district)
        (normOpt crop_name) m₂⟩
  · intro beh₂ resp h hs
    rw [get_crop_prices_live beh₂ DEV_MODE today state district crop_name price_date
      data_source true p hstate hsrc] at h
    exact livePath_ok_success beh₂ p today (pyTitle (stripStr state)) (normOpt district)
      (normOpt crop_name) price_date true resp h hs

/-- C4 witness: with an always-failing adapter and the unknown state Atlantis,
the call returns a failure response with count 0 instead of raising. -/
theorem exhausted_fallbacks_failure_response_witness :
    ∃ resp, (get_crop_prices (fun _ _ => .recoverable .network "down") false 0
        "Atlantis" none none none "agmarknet" true (some false)).1 = .ok resp ∧
      resp.success = false ∧ resp.data = [] ∧ resp.count = 0 := by
  have h := exhausted_fallbacks_failure_response (fun _ _ => .recoverable .network "down")
    false 0 "Atlantis" none none none "agmarknet" .agmarknet
    .network .network .network "down" "down" "down"
    (by decide) (by decide) rfl rfl rfl
    (fun ps hps => FetchResult.noConfusion hps) (by decide)
  obtain ⟨⟨resp, h1, h2, h3, h4, h5, h6⟩, _⟩ := h
  exact ⟨resp, h1, h2, h3, h4⟩

end CropPriceService
